import Mathlib

/-!
Verification of the AOI tiler, missing-tile reconciler and mosaic accumulator
of the brahmanbariavegetation repository.

The Python sources are shallowly embedded over exact rationals (`ℚ`):

* Latitude/longitude conversions that the code performs with `math.cos` are
  parametrised by the already-computed cosine value (`cosRefLat`), since the
  cosine of the fixed reference latitude is a transcendental constant; all
  claims settled here depend only on its sign or on it being zero.
* Python `while` loops become well-founded recursive list builders
  (`whileStartsUp`, `whileStartsDown`) over the same loop variables.
* Fallible code (`raise`) becomes `Except String`; a Python
  `ZeroDivisionError` is modelled by the checked division `pydiv`.
* Earth Engine geometry intersection/area queries are abstracted by a
  `keep : Rect → Bool` oracle standing for `area(rect ∩ aoi) > 0`.
-/

deriving instance DecidableEq for Except

/-- Axis-aligned geographic rectangle `(lon_min, lat_min, lon_max, lat_max)`,
the tuple shape used throughout the Python scripts. -/
structure Rect where
  lonMin : ℚ
  latMin : ℚ
  lonMax : ℚ
  latMax : ℚ
deriving DecidableEq, Repr

/-- The fixed Brahmanbaria AOI polygon, `BRAHMANBARIA_BBOX` in
`src/alphaearth/download_alphaearth_embeddings.py` (and the identical
`brahmanbaria_coords()` in the S2 scripts), as exact rationals. -/
def brahmanbaria_coords : List (ℚ × ℚ) :=
  [(905024/10000, 244451/10000),
   (906174/10000, 235101/10000),
   (914834/10000, 235049/10000),
   (914655/10000, 243480/10000),
   (905024/10000, 244451/10000)]

/-- `BRAHMANBARIA_BBOX` of the alphaearth/naturalforest scripts: literally the
same vertex list as `brahmanbaria_coords()`. -/
def BRAHMANBARIA_BBOX : List (ℚ × ℚ) := brahmanbaria_coords

/-- `km_to_deg_lat` from `download_alphaearth_embeddings.py` (and the
naturalforest/check scripts): `kilometers / 111.32`. -/
def km_to_deg_lat (kilometers : ℚ) : ℚ := kilometers / (2783/25)

/-- `km_to_deg_lon` from the same scripts. It is parametrised by
`cosLat = math.cos(math.radians(reference_lat))`; the code raises
`ValueError` when that cosine is zero. -/
def km_to_deg_lon (kilometers cosLat : ℚ) : Except String ℚ :=
  if cosLat = 0 then .error "Cannot compute longitude degrees at the poles."
  else .ok (kilometers / ((2783/25) * cosLat))

/-- `get_bounds_from_polygon`: component-wise min/max over the vertex list.
Python `min()`/`max()` raise on an empty sequence, hence `Option`. -/
def get_bounds_from_polygon : List (ℚ × ℚ) → Option Rect
  | [] => none
  | p :: ps =>
    some (ps.foldl
      (fun r q => ⟨min r.lonMin q.1, min r.latMin q.2,
                   max r.lonMax q.1, max r.latMax q.2⟩)
      ⟨p.1, p.2, p.1, p.2⟩)

/-- Ascending while-loop of the tilers: the start values
`start, start + step, …` taken while `start < stop`.  The loop body of
`iterate_tiles` only runs with a strictly positive step (the code raises
beforehand otherwise), which is the termination argument. -/
def whileStartsUp (stop step : ℚ) (hstep : 0 < step) (start : ℚ) : List ℚ :=
  if h' : start < stop then start :: whileStartsUp stop step hstep (start + step) else []
termination_by (⌈(stop - start) / step⌉).toNat
decreasing_by
  have h1 : (stop - (start + step)) / step = (stop - start) / step - 1 := by
    field_simp
    ring
  rw [h1, Int.ceil_sub_one]
  have h2 : (0:ℤ) < ⌈(stop - start) / step⌉ :=
    Int.ceil_pos.mpr (div_pos (by linarith) hstep)
  omega

/-- Descending while-loop of `split_bbox_by_km`: values
`start, start - step, …` taken while `start > stop`. -/
def whileStartsDown (stop step : ℚ) (hstep : 0 < step) (start : ℚ) : List ℚ :=
  if h' : stop < start then start :: whileStartsDown stop step hstep (start - step) else []
termination_by (⌈(start - stop) / step⌉).toNat
decreasing_by
  have h1 : (start - step - stop) / step = (start - stop) / step - 1 := by
    field_simp
    ring
  rw [h1, Int.ceil_sub_one]
  have h2 : (0:ℤ) < ⌈(start - stop) / step⌉ :=
    Int.ceil_pos.mpr (div_pos (by linarith) hstep)
  omega

/-- The nested row/column loop of `iterate_tiles`: row-major over latitude
starts (ascending) and longitude starts, clipping each cell to the bounding
box and keeping only cells passing the AOI-intersection test. -/
def tile_grid (bb : Rect) (wDeg hDeg stepLon stepLat : ℚ)
    (hlon : 0 < stepLon) (hlat : 0 < stepLat) (keep : Rect → Bool) :
    List (ℕ × ℕ × Rect) :=
  (whileStartsUp bb.latMax stepLat hlat bb.latMin).enum.flatMap fun rowStart =>
    (whileStartsUp bb.lonMax stepLon hlon bb.lonMin).enum.filterMap fun colStart =>
      let r : Rect := ⟨colStart.2, rowStart.2,
                       min (colStart.2 + wDeg) bb.lonMax,
                       min (rowStart.2 + hDeg) bb.latMax⟩
      if keep r then some (rowStart.1, colStart.1, r) else none

/-- `iterate_tiles` from `download_alphaearth_embeddings.py` (shared verbatim
by `check_alphaearth_tiles.py` and `download_naturalforest.py`).  Bounds come
from the polygon, kilometre sizes are converted to degrees, tile dimensions
and then step sizes are validated, and the nested row/column loop emits each
grid rectangle (clipped to the bounding box) whose AOI intersection has
positive area, the latter modelled by the `keep` oracle.  Row/column indices
count grid cells, including dropped ones, exactly as the Python counters
do. -/
def iterate_tiles (polygon : List (ℚ × ℚ)) (cosRefLat : ℚ) (keep : Rect → Bool)
    (tileWidthKm tileHeightKm overlapKm : ℚ) :
    Except String (List (ℕ × ℕ × Rect)) :=
  match get_bounds_from_polygon polygon with
  | none => .error "min() arg is an empty sequence"
  | some bb =>
    match km_to_deg_lon tileWidthKm cosRefLat, km_to_deg_lon overlapKm cosRefLat with
    | .error e, _ => .error e
    | .ok _, .error e => .error e
    | .ok tileWidthDeg, .ok overlapLonDeg =>
      let tileHeightDeg := km_to_deg_lat tileHeightKm
      let overlapLatDeg := km_to_deg_lat overlapKm
      if tileWidthDeg ≤ 0 ∨ tileHeightDeg ≤ 0 then
        .error "Tile width/height must be greater than zero."
      else if hstep : tileWidthDeg - overlapLonDeg ≤ 0 ∨ tileHeightDeg - overlapLatDeg ≤ 0 then
        .error "Tile overlap must be smaller than the tile dimensions."
      else
        have hlon : 0 < tileWidthDeg - overlapLonDeg := by
          push_neg at hstep
          linarith [hstep.1]
        have hlat : 0 < tileHeightDeg - overlapLatDeg := by
          push_neg at hstep
          linarith [hstep.2]
        .ok (tile_grid bb tileWidthDeg tileHeightDeg
          (tileWidthDeg - overlapLonDeg) (tileHeightDeg - overlapLatDeg)
          hlon hlat keep)

/-- `meters_per_degree` from `download_gee_s2_cloudfree_composite.py` and
`check_download_gee_s2_composite.py`: `(111_320, 111_320 * cos(mean_lat))`,
parametrised by the computed cosine.  Note: no pole guard. -/
def meters_per_degree (cosMeanLat : ℚ) : ℚ × ℚ :=
  (111320, 111320 * cosMeanLat)

/-- Python float division: raises `ZeroDivisionError` on a zero divisor. -/
def pydiv (a b : ℚ) : Except String ℚ :=
  if b = 0 then .error "ZeroDivisionError: float division by zero" else .ok (a / b)

/-- The nested loop of `split_bbox_by_km`: rows walk the latitude tops
downward from `lat_max`, columns walk the longitude lefts upward from
`lon_min`; every grid cell is yielded (no AOI filter), with the cell clipped
to the bounding box edges. -/
def s2_tile_grid (bbox : Rect) (wDeg hDeg stepLon stepLat : ℚ)
    (hlon : 0 < stepLon) (hlat : 0 < stepLat) : List (Rect × ℕ × ℕ) :=
  (whileStartsDown bbox.latMin stepLat hlat bbox.latMax).enum.flatMap fun rowTop =>
    (whileStartsUp bbox.lonMax stepLon hlon bbox.lonMin).enum.map fun colLeft =>
      (⟨colLeft.2, max (rowTop.2 - hDeg) bbox.latMin,
        min (colLeft.2 + wDeg) bbox.lonMax, rowTop.2⟩,
       rowTop.1, colLeft.1)

/-- `split_bbox_by_km` from the GEE S2 scripts.  After the overlap check the
kilometre sizes are divided by the metres-per-degree factors (the longitude
division can hit a zero divisor at the poles: `pydiv`), then a descending
latitude loop and ascending longitude loop yield every grid cell with its
`(row, col)` indices — there is no AOI-intersection filter here.  The final
`else` branch is unreachable for geographic latitudes (`cos > 0` strictly
between the poles, and the overlap check makes both kilometre steps
positive); the Python loop would not terminate there, which the model marks
with a dedicated error. -/
def split_bbox_by_km (bbox : Rect) (cosMeanLat : ℚ)
    (tileWKm tileHKm overlapKm : ℚ) :
    Except String (List (Rect × ℕ × ℕ)) :=
  let m := meters_per_degree cosMeanLat
  if tileWKm ≤ overlapKm ∨ tileHKm ≤ overlapKm then
    .error "Tile width/height must be greater than overlap."
  else
    match pydiv (tileWKm * 1000) m.2, pydiv (overlapKm * 1000) m.2 with
    | .error e, _ => .error e
    | .ok _, .error e => .error e
    | .ok tileWDeg, .ok overlapDegLon =>
      let tileHDeg := (tileHKm * 1000) / m.1
      let overlapDegLat := (overlapKm * 1000) / m.1
      let stepLonDeg := tileWDeg - overlapDegLon
      let stepLatDeg := tileHDeg - overlapDegLat
      if hpos : 0 < stepLonDeg ∧ 0 < stepLatDeg then
        .ok (s2_tile_grid bbox tileWDeg tileHDeg stepLonDeg stepLatDeg
          hpos.1 hpos.2)
      else .error "model: tiling loop does not terminate for these parameters"

/-- Python `f"{n:02d}"` for a non-negative integer: zero-padded to a minimum
width of two digits. -/
def pad2 (n : ℕ) : String := if n < 10 then "0" ++ toString n else "" ++ toString n

/-- Tile filename built by `export_tiled_embeddings`
(`download_alphaearth_embeddings.py`):
`f"{stem}_r{row:02d}_c{col:02d}{suffix}"`. -/
def alphaearth_tile_name (stem suffix : String) (row col : ℕ) : String :=
  stem ++ "_r" ++ pad2 row ++ "_c" ++ pad2 col ++ suffix

/-- Tile filename re-derived by `check_tiles` (`check_alphaearth_tiles.py`),
same f-string. -/
def check_alphaearth_tile_name (stem suffix : String) (row col : ℕ) : String :=
  stem ++ "_r" ++ pad2 row ++ "_c" ++ pad2 col ++ suffix

/-- Tile filename built by `export_tiled_natural_forest`
(`download_naturalforest.py`), same f-string. -/
def naturalforest_tile_name (stem suffix : String) (row col : ℕ) : String :=
  stem ++ "_r" ++ pad2 row ++ "_c" ++ pad2 col ++ suffix

/-- Tile filename built by `main` of `download_gee_s2_cloudfree_composite.py`:
`f"{prefix}_{args.year}_{month_num:02d}_r{r}_c{c}.tif"` — row and column are
NOT zero-padded there. -/
def s2_download_tile_name (stem : String) (year month r c : ℕ) : String :=
  stem ++ "_" ++ toString year ++ "_" ++ pad2 month ++ "_r" ++ toString r
    ++ "_c" ++ toString c ++ ".tif"

/-- Tile filename re-derived by `main` of `check_download_gee_s2_composite.py`:
`f"{prefix}_{args.year}_{month_num:02d}_r{r}_c{c}{args.ext}"` — also
unpadded. -/
def s2_check_tile_name (stem : String) (year month r c : ℕ) (ext : String) : String :=
  stem ++ "_" ++ toString year ++ "_" ++ pad2 month ++ "_r" ++ toString r
    ++ "_c" ++ toString c ++ ext

/-- The naming convention as the specification states it
(`{stem}_r{row:02d}_c{col:02d}{suffix}`, row/col zero-padded to 2 digits);
written from the spec's words for comparison with the source-derived name
functions. -/
def spec_tile_name (stem : String) (row col : ℕ) (suffix : String) : String :=
  stem ++ "_r" ++ pad2 row ++ "_c" ++ pad2 col ++ suffix

/-- A rasterio window: column/row offset plus width/height in pixels inside
the destination grid. -/
structure Window where
  colOff : ℤ
  rowOff : ℤ
  width : ℤ
  height : ℤ
deriving DecidableEq, Repr

/-- Membership of an absolute destination pixel `(row, col)` in a window. -/
def Window.containsB (w : Window) (row col : ℤ) : Bool :=
  decide (w.rowOff ≤ row) && decide (row < w.rowOff + w.height) &&
  decide (w.colOff ≤ col) && decide (col < w.colOff + w.width)

/-- One tile as the mosaic writers see it: its destination window plus its
pixel data, addressed by window-relative row/column.  (The block-streaming
path of `_stream_tile` partitions the same window into blocks and writes the
same values, so a tile write is modelled as one whole-window write.) -/
structure TileWrite where
  win : Window
  val : ℤ → ℤ → ℚ

/-- `dst.write(data, window=win)`: inside the window the tile's pixels
replace whatever the grid held; outside, the grid is untouched. -/
def write_window (g : ℤ → ℤ → ℚ) (t : TileWrite) : ℤ → ℤ → ℚ :=
  fun row col =>
    if t.win.containsB row col then t.val (row - t.win.rowOff) (col - t.win.colOff)
    else g row col

/-- The write loop shared by `_streaming_mosaic` (`mosaic_s2_composite.py`,
lines 73–86) and the per-tile streaming of `mosaic_naturalforest.py`: tiles
are written into the destination one after the other in iteration order. -/
def streaming_mosaic_write (init : ℤ → ℤ → ℚ) (tiles : List TileWrite) : ℤ → ℤ → ℚ :=
  tiles.foldl write_window init

/-- An affine geo-transform `(a, b, c, d, e, f)` as rasterio orders it:
`x = a·col + b·row + c`, `y = d·col + e·row + f`. -/
structure Affine where
  a : ℚ
  b : ℚ
  c : ℚ
  d : ℚ
  e : ℚ
  f : ℚ
deriving DecidableEq, Repr

/-- `rasterio.transform.from_origin(west, north, xsize, ysize)`. -/
def from_origin (west north xsize ysize : ℚ) : Affine :=
  ⟨xsize, 0, west, 0, -ysize, north⟩

/-- `math.ceil` on an exact rational, as `⌈num/den⌉` via Euclidean division
(kernel-reducible, unlike Mathlib's `Int.ceil` instance path). -/
def math_ceil (q : ℚ) : ℤ := -((-q.num).ediv q.den)

/-- Python `round` as used for rasterio window rounding (`round_offsets` /
`round_lengths`); half-up on the exact rational.  No settled claim depends on
the tie-breaking choice. -/
def round_q (q : ℚ) : ℤ := (2 * q.num + q.den).ediv (2 * q.den)

/-- The raster metadata of a tile file that the mosaic scripts read:
geographic bounds, CRS (abstract id), the `a`/`e` transform coefficients
(pixel width and negated pixel height), pixel dimensions, datatype (abstract
id), band count and optional nodata. -/
structure TileMeta where
  left : ℚ
  bottom : ℚ
  right : ℚ
  top : ℚ
  crs : ℕ
  transA : ℚ
  transE : ℚ
  widthPx : ℤ
  heightPx : ℤ
  dtype : ℕ
  bandCount : ℕ
  nodata : Option ℚ
deriving DecidableEq, Repr

/-- Output metadata computed by `compute_mosaic_metadata`
(`mosaic_naturalforest.py`). -/
structure MosaicMeta where
  transform : Affine
  width : ℤ
  height : ℤ
  crs : ℕ
  dtype : ℕ
  bandCount : ℕ
  nodata : ℚ
deriving DecidableEq, Repr

/-- The per-tile loop body of `compute_mosaic_metadata`: extend the running
bounds, then check CRS and the `a`/`e` transform coefficients against the
reference (first) tile, raising `ValueError` on the first mismatch. -/
def mosaic_meta_fold (ref : TileMeta) :
    ℚ × ℚ × ℚ × ℚ → List TileMeta → Except String (ℚ × ℚ × ℚ × ℚ)
  | acc, [] => .ok acc
  | acc, t :: rest =>
    let acc' := (min acc.1 t.left, min acc.2.1 t.bottom,
                 max acc.2.2.1 t.right, max acc.2.2.2 t.top)
    if t.crs ≠ ref.crs then .error "CRS mismatch"
    else if t.transA ≠ ref.transA ∨ t.transE ≠ ref.transE then
      .error "Resolution/transform mismatch"
    else mosaic_meta_fold ref acc' rest

/-- `compute_mosaic_metadata` from `mosaic_naturalforest.py`: the union
bounding box over all tiles, reference CRS/resolution/datatype from the first
tile, with every subsequent tile checked against it; output width/height via
`math.ceil`, transform anchored at `(minx, maxy)`, nodata defaulted to 0. -/
def compute_mosaic_metadata (tiles : List TileMeta) : Except String MosaicMeta :=
  match tiles with
  | [] => .error "No tiles found."
  | ref :: rest =>
    match mosaic_meta_fold ref (ref.left, ref.bottom, ref.right, ref.top) rest with
    | .error e => .error e
    | .ok (minx, miny, maxx, maxy) =>
      let pixelWidth := ref.transA
      let pixelHeight := -ref.transE
      let width := math_ceil ((maxx - minx) / pixelWidth)
      let height := math_ceil ((maxy - miny) / pixelHeight)
      .ok ⟨from_origin minx maxy pixelWidth pixelHeight, width, height,
           ref.crs, ref.dtype, ref.bandCount, ref.nodata.getD 0⟩

/-- Output profile of `_streaming_mosaic` (`mosaic_s2_composite.py`). -/
structure S2Profile where
  height : ℤ
  width : ℤ
  transform : Affine
  bandCount : ℕ
  dtype : ℕ
  crs : ℕ
  nodata : ℚ
deriving DecidableEq, Repr

/-- Union bounds over a tile list starting from a first accumulator, as the
`lefts/bottoms/rights/tops` min/max of `_streaming_mosaic`. -/
def union_bounds (acc : ℚ × ℚ × ℚ × ℚ) : List TileMeta → ℚ × ℚ × ℚ × ℚ
  | [] => acc
  | t :: rest =>
    union_bounds (min acc.1 t.left, min acc.2.1 t.bottom,
                  max acc.2.2.1 t.right, max acc.2.2.2 t.top) rest

/-- The metadata phase of `_streaming_mosaic` (`mosaic_s2_composite.py`,
lines 36–70): nodata/dtype/band count/resolution/CRS are taken from
`tiles[0]` and the output grid spans the union bounds.  Unlike
`compute_mosaic_metadata` there is NO verification of the remaining tiles:
the only failure is an empty tile list. -/
def streaming_mosaic_profile (tiles : List TileMeta) : Except String S2Profile :=
  match tiles with
  | [] => .error "No tiles provided for mosaicking"
  | ref :: rest =>
    let nodata := ref.nodata.getD 0
    let resX := ref.transA
    let resY := -ref.transE
    let (minLeft, minBottom, maxRight, maxTop) :=
      union_bounds (ref.left, ref.bottom, ref.right, ref.top) rest
    let width := math_ceil ((maxRight - minLeft) / resX)
    let height := math_ceil ((maxTop - minBottom) / resY)
    .ok ⟨height, width, from_origin minLeft maxTop resX resY,
         ref.bandCount, ref.dtype, ref.crs, nodata⟩

/-- Existing output raster inspected when `mosaic_naturalforest.py` resumes. -/
structure ExistingOutput where
  transform : Affine
  width : ℤ
  height : ℤ
deriving DecidableEq, Repr

/-- The window-mismatch guard of `_stream_tile` (`mosaic_naturalforest.py`):
the tile's destination window is derived from its bounds and the shared
transform (offsets and lengths rounded), and must match the tile's own pixel
dimensions before any pixel of that tile is written. -/
def stream_tile_guard (dstTransform : Affine) (t : TileMeta) : Except String Unit :=
  let dstW := round_q ((t.right - t.left) / dstTransform.a)
  let dstH := round_q ((t.bottom - t.top) / dstTransform.e)
  if dstW = t.widthPx ∧ dstH = t.heightPx then .ok () else .error "Window mismatch"

/-- The per-tile write loop of `mosaic_tiles`: stream each remaining tile,
recording the 1-based index of every tile actually written; a failing tile
aborts with the writes made so far kept. -/
def mosaic_write_loop (dstTransform : Affine) :
    List TileMeta → ℕ → List ℕ × Except String Unit
  | [], _ => ([], .ok ())
  | t :: rest, i =>
    match stream_tile_guard dstTransform t with
    | .error e => ([], .error e)
    | .ok _ =>
      let tail := mosaic_write_loop dstTransform rest (i + 1)
      (i :: tail.1, tail.2)

/-- `mosaic_tiles` from `mosaic_naturalforest.py`.  Metadata is recomputed
from the tile list; the 1-based `start_tile` must be in range; when resuming
(`start_tile > 1`) the output must already exist with a transform and
dimensions equal to the recomputed metadata — all verified before the write
loop opens the file.  Returns the 1-based indices of tiles written and the
outcome; an aborted run reports no writes, mirroring that the exception is
raised before any write. -/
def mosaic_tiles (tiles : List TileMeta) (existing : Option ExistingOutput)
    (startTile : ℤ) : List ℕ × Except String Unit :=
  match compute_mosaic_metadata tiles with
  | .error e => ([], .error e)
  | .ok meta =>
    if startTile < 1 ∨ startTile > (tiles.length : ℤ) then
      ([], .error "start_tile out of range")
    else if startTile > 1 then
      match existing with
      | none => ([], .error "Cannot resume because the output does not exist.")
      | some ex =>
        if ex.transform ≠ meta.transform then
          ([], .error "Existing mosaic transform does not match computed metadata.")
        else if ex.width ≠ meta.width ∨ ex.height ≠ meta.height then
          ([], .error "Existing mosaic dimensions differ from expected tiles.")
        else
          mosaic_write_loop meta.transform (tiles.drop (startTile - 1).toNat)
            startTile.toNat
    else
      mosaic_write_loop meta.transform tiles 1

/-- A filesystem as the checkers see it: which directories and which files
exist.  Paths are plain strings. -/
structure FS where
  dirs : List String
  files : List String
deriving DecidableEq, Repr

/-- `Path.mkdir(parents=True, exist_ok=True)`. -/
def FS.mkdirAll (fs : FS) (d : String) : FS :=
  ⟨if d ∈ fs.dirs then fs.dirs else d :: fs.dirs, fs.files⟩

/-- Report of a reconciliation run: expected-tile count and the missing
paths, in canonical tile order. -/
structure CheckReport where
  total : ℕ
  missing : List String
deriving DecidableEq, Repr

/-- `check_tiles` from `check_alphaearth_tiles.py`, after the tile grid has
been enumerated (the `(row, col)` list parameter abstracts `iterate_tiles`):
the parent directory is created with `mkdir(parents=True, exist_ok=True)`
first, then every expected tile filename is tested for existence and the
absent ones are collected, in order.  There is no error path: a missing
directory simply yields no existing files. -/
def check_tiles (fs : FS) (parentDir stem suffix : String)
    (tiles : List (ℕ × ℕ)) : FS × CheckReport :=
  let fs' := fs.mkdirAll parentDir
  let missing := tiles.filterMap fun rc =>
    let p := parentDir ++ "/" ++ check_alphaearth_tile_name stem suffix rc.1 rc.2
    if p ∈ fs'.files then none else some p
  (fs', ⟨tiles.length, missing⟩)

/-- The reconciliation portion of `main` in
`check_download_gee_s2_composite.py` (the `(row, col)` list abstracts
`split_bbox_by_km`): each expected filename is tested with `fpath.exists()`
and missing ones collected.  No directory is ever created and there is no
error path — a nonexistent directory just makes every `exists()` false. -/
def s2_check_main (fs : FS) (outDir stem : String) (year month : ℕ)
    (ext : String) (tiles : List (ℕ × ℕ)) : FS × CheckReport :=
  let missing := tiles.filterMap fun rc =>
    let p := outDir ++ "/" ++ s2_check_tile_name stem year month rc.1 rc.2 ext
    if p ∈ fs.files then none else some p
  (fs, ⟨tiles.length, missing⟩)

/-- An externally observable I/O effect of a download script: a network
round-trip or a local disk write. -/
inductive Ev
  | net : String → Ev
  | disk : String → Ev
deriving DecidableEq, Repr

/-- Whether an event is network I/O. -/
def Ev.isNetwork : Ev → Bool
  | .net _ => true
  | .disk _ => false

/-- The effect sequence of `main` in `download_alphaearth_embeddings.py`:
`initialize_earth_engine` (network), `build_embeddings_image` (a collection
size query over the network, failing on an empty collection), then
`export_tiled_embeddings`, whose first act is to materialise
`iterate_tiles` — so every tiling configuration error is raised only after
the two network calls.  On success each tile costs one export round-trip
after the output directory is created. -/
def alphaearth_main (cosRefLat : ℚ) (keep : Rect → Bool) (collectionSize : ℕ)
    (tileWidthKm tileHeightKm overlapKm : ℚ) : List Ev × Except String Unit :=
  let evs := [Ev.net "ee.Initialize", Ev.net "ImageCollection.size.getInfo"]
  if collectionSize = 0 then
    (evs, .error "No AlphaEarth embeddings found for the supplied parameters.")
  else
    match iterate_tiles BRAHMANBARIA_BBOX cosRefLat keep
        tileWidthKm tileHeightKm overlapKm with
    | .error e => (evs, .error e)
    | .ok tiles =>
      if tiles.isEmpty then
        (evs, .error "No tiles generated for the provided geometry.")
      else
        (evs ++ [Ev.disk "mkdir"] ++ tiles.map (fun _ => Ev.net "ee_export_image"),
         .ok ())

/-- `bbox_from_coords` from the GEE S2 scripts: identical min/max bounds
computation to `get_bounds_from_polygon` (the scripts duplicate it). -/
def bbox_from_coords (coords : List (ℚ × ℚ)) : Option Rect :=
  get_bounds_from_polygon coords

/-- The effect sequence of `main` in
`download_gee_s2_cloudfree_composite.py`: month parsing, prefix derivation
and `split_bbox_by_km` (materialised by `list(...)`) all run before
`init_ee()`, so a tiling configuration error aborts with no I/O performed;
only then come Earth Engine initialisation, the composite queries (failing
when no images match) and the per-tile downloads. -/
def s2_cloudfree_main (cosMeanLat : ℚ) (collectionSize : ℕ)
    (tileWidthKm tileHeightKm overlapKm : ℚ) : List Ev × Except String Unit :=
  match bbox_from_coords brahmanbaria_coords with
  | none => ([], .error "min() arg is an empty sequence")
  | some bbox =>
    match split_bbox_by_km bbox cosMeanLat tileWidthKm tileHeightKm overlapKm with
    | .error e => ([], .error e)
    | .ok tiles =>
      let evs := [Ev.net "ee.Initialize", Ev.net "collection.size.getInfo"]
      if collectionSize = 0 then
        (evs, .error "No images found after filtering.")
      else
        (evs ++ tiles.flatMap (fun _ => [Ev.net "getDownloadURL", Ev.disk "write_tile"]),
         .ok ())

/-- The loop measure drops with each iteration of an ascending step loop. -/
theorem ceil_div_toNat_lt {stop step start : ℚ} (h : 0 < step) (hlt : start < stop) :
    (⌈(stop - (start + step)) / step⌉).toNat < (⌈(stop - start) / step⌉).toNat := by
  have h1 : (stop - (start + step)) / step = (stop - start) / step - 1 := by
    field_simp
    ring
  rw [h1, Int.ceil_sub_one]
  have h2 : (0:ℤ) < ⌈(stop - start) / step⌉ :=
    Int.ceil_pos.mpr (div_pos (by linarith) h)
  omega

/-- Every point of `[start, stop)` lies in `[t, t + step)` for some emitted
loop start `t`: the ascending loop leaves no gap of width `step` uncovered. -/
theorem whileStartsUp_cover (stop step : ℚ) (h : 0 < step) (start x : ℚ)
    (hle : start ≤ x) (hlt : x < stop) :
    ∃ t ∈ whileStartsUp stop step h start, t ≤ x ∧ x < t + step := by
  have hstart : start < stop := lt_of_le_of_lt hle hlt
  rw [whileStartsUp, dif_pos hstart]
  by_cases hx : x < start + step
  · exact ⟨start, List.mem_cons_self _ _, hle, hx⟩
  · push_neg at hx
    obtain ⟨t, ht, h1, h2⟩ := whileStartsUp_cover stop step h (start + step) x hx hlt
    exact ⟨t, List.mem_cons_of_mem _ ht, h1, h2⟩
termination_by (⌈(stop - start) / step⌉).toNat
decreasing_by
  exact ceil_div_toNat_lt h hstart

/-- The head of an ascending loop list is its start value. -/
theorem whileStartsUp_head (stop step : ℚ) (h : 0 < step) (start a : ℚ)
    (ha : (whileStartsUp stop step h start)[0]? = some a) : a = start := by
  rw [whileStartsUp] at ha
  by_cases hs : start < stop
  · rw [dif_pos hs] at ha
    simpa using ha.symm
  · rw [dif_neg hs] at ha
    simp at ha

/-- Consecutive entries of the ascending loop list differ by exactly the
step. -/
theorem whileStartsUp_succ (stop step : ℚ) (h : 0 < step) (i : ℕ) :
    ∀ (start a b : ℚ),
      (whileStartsUp stop step h start)[i]? = some a →
      (whileStartsUp stop step h start)[i+1]? = some b →
      b = a + step := by
  induction i with
  | zero =>
    intro start a b ha hb
    have ha' : a = start := whileStartsUp_head stop step h start a ha
    rw [whileStartsUp] at hb
    by_cases hs : start < stop
    · rw [dif_pos hs] at hb
      have hb' : b = start + step :=
        whileStartsUp_head stop step h (start + step) b (by simpa using hb)
      rw [ha', hb']
    · rw [dif_neg hs] at hb
      simp at hb
  | succ n ih =>
    intro start a b ha hb
    rw [whileStartsUp] at ha hb
    by_cases hs : start < stop
    · rw [dif_pos hs] at ha hb
      exact ih (start + step) a b (by simpa using ha) (by simpa using hb)
    · rw [dif_neg hs] at ha
      simp at ha

/-- A nonempty vertex list always yields bounds. -/
theorem get_bounds_isSome (polygon : List (ℚ × ℚ)) (hne : polygon ≠ []) :
    ∃ bb, get_bounds_from_polygon polygon = some bb := by
  match polygon with
  | [] => exact absurd rfl hne
  | p :: ps => exact ⟨_, rfl⟩

/-- Any list member appears in `enum` at some index. -/
theorem exists_enum_of_mem {α : Type} {l : List α} {a : α} (hmem : a ∈ l) :
    ∃ i, (i, a) ∈ l.enum := by
  obtain ⟨i, hi, hval⟩ := List.getElem_of_mem hmem
  refine ⟨i, List.mk_mem_enum_iff_getElem?.mpr ?_⟩
  rw [List.getElem?_eq_getElem hi, hval]

/-- Unfolding of `iterate_tiles` on a valid configuration: it reaches the
loop nest and returns the tile grid. -/
theorem iterate_tiles_ok (polygon : List (ℚ × ℚ)) (cosRefLat : ℚ)
    (keep : Rect → Bool) (w h ov : ℚ) (bb : Rect)
    (hbb : get_bounds_from_polygon polygon = some bb)
    (hcos : cosRefLat ≠ 0)
    (hw : 0 < w / ((2783/25) * cosRefLat))
    (hh : 0 < km_to_deg_lat h)
    (hlon : 0 < w / ((2783/25) * cosRefLat) - ov / ((2783/25) * cosRefLat))
    (hlat : 0 < km_to_deg_lat h - km_to_deg_lat ov) :
    iterate_tiles polygon cosRefLat keep w h ov =
      .ok (tile_grid bb (w / ((2783/25) * cosRefLat)) (km_to_deg_lat h)
        (w / ((2783/25) * cosRefLat) - ov / ((2783/25) * cosRefLat))
        (km_to_deg_lat h - km_to_deg_lat ov) hlon hlat keep) := by
  unfold iterate_tiles
  rw [hbb]
  simp only [km_to_deg_lon, if_neg hcos]
  rw [if_neg (by push_neg; exact ⟨by linarith, by linarith⟩)]
  rw [dif_neg (by push_neg; exact ⟨by linarith, by linarith⟩)]

/-- On an overlap at least as large as a tile dimension (with positive
dimensions and positive cosine), `iterate_tiles` raises the overlap
`ValueError` before entering the loops. -/
theorem iterate_tiles_overlap_error (polygon : List (ℚ × ℚ)) (cosRefLat : ℚ)
    (keep : Rect → Bool) (w h ov : ℚ)
    (hpoly : polygon ≠ []) (hcos : 0 < cosRefLat)
    (hw : 0 < w) (hh : 0 < h) (hov : w ≤ ov ∨ h ≤ ov) :
    iterate_tiles polygon cosRefLat keep w h ov =
      .error "Tile overlap must be smaller than the tile dimensions." := by
  obtain ⟨bb, hbb⟩ := get_bounds_isSome polygon hpoly
  have hdenom : (0:ℚ) < (2783/25) * cosRefLat := by positivity
  unfold iterate_tiles
  rw [hbb]
  simp only [km_to_deg_lon, if_neg (ne_of_gt hcos)]
  rw [if_neg (by
    push_neg
    exact ⟨div_pos hw hdenom, div_pos hh (by norm_num)⟩)]
  rw [dif_pos (by
    rcases hov with hov | hov
    · left
      rw [div_sub_div_same]
      exact div_nonpos_of_nonpos_of_nonneg (by linarith) (le_of_lt hdenom)
    · right
      unfold km_to_deg_lat
      rw [div_sub_div_same]
      exact div_nonpos_of_nonpos_of_nonneg (by linarith) (by norm_num))]

/-- Unfolding of `split_bbox_by_km` on a valid configuration. -/
theorem split_bbox_ok (bbox : Rect) (cosMeanLat w h ov : ℚ)
    (hcos : 0 < cosMeanLat) (hw : ov < w) (hh : ov < h) :
    ∃ hlon hlat,
      split_bbox_by_km bbox cosMeanLat w h ov =
        .ok (s2_tile_grid bbox ((w * 1000) / (111320 * cosMeanLat))
          ((h * 1000) / 111320)
          ((w * 1000) / (111320 * cosMeanLat) - (ov * 1000) / (111320 * cosMeanLat))
          ((h * 1000) / 111320 - (ov * 1000) / 111320) hlon hlat) := by
  have hdenom : (0:ℚ) < 111320 * cosMeanLat := by positivity
  have hlon : 0 < (w * 1000) / (111320 * cosMeanLat) - (ov * 1000) / (111320 * cosMeanLat) := by
    rw [div_sub_div_same]
    exact div_pos (by linarith) hdenom
  have hlat : 0 < (h * 1000) / 111320 - (ov * 1000) / 111320 := by
    rw [div_sub_div_same]
    exact div_pos (by linarith) (by norm_num)
  refine ⟨hlon, hlat, ?_⟩
  unfold split_bbox_by_km meters_per_degree
  rw [if_neg (by push_neg; exact ⟨hw, hh⟩)]
  simp only [pydiv, if_neg (ne_of_gt hdenom)]
  rw [dif_pos ⟨hlon, hlat⟩]

/-- `split_bbox_by_km` rejects an overlap at least as large as a tile
dimension with its `ValueError`, before any division or loop. -/
theorem split_bbox_overlap_error (bbox : Rect) (cosMeanLat w h ov : ℚ)
    (hov : w ≤ ov ∨ h ≤ ov) :
    split_bbox_by_km bbox cosMeanLat w h ov =
      .error "Tile width/height must be greater than overlap." := by
  unfold split_bbox_by_km
  rw [if_pos hov]

/-- If a point of the bounding box passes the keep oracle for every cell
containing it, the grid contains a tile covering it (used with overlap ≥ 0,
so that the step does not exceed the tile dimension). -/
theorem tile_grid_covers (bb : Rect) (wDeg hDeg stepLon stepLat : ℚ)
    (hlon : 0 < stepLon) (hlat : 0 < stepLat) (keep : Rect → Bool)
    (plon plat : ℚ)
    (hsw : stepLon ≤ wDeg) (hsh : stepLat ≤ hDeg)
    (hplon : bb.lonMin ≤ plon) (hplon2 : plon < bb.lonMax)
    (hplat : bb.latMin ≤ plat) (hplat2 : plat < bb.latMax)
    (hkeep : ∀ r : Rect, r.lonMin ≤ plon → plon ≤ r.lonMax →
      r.latMin ≤ plat → plat ≤ r.latMax → keep r = true) :
    ∃ e, e ∈ tile_grid bb wDeg hDeg stepLon stepLat hlon hlat keep := by
  obtain ⟨tlat, hlatMem, hlatLe, hlatLt⟩ :=
    whileStartsUp_cover bb.latMax stepLat hlat bb.latMin plat hplat hplat2
  obtain ⟨tlon, hlonMem, hlonLe, hlonLt⟩ :=
    whileStartsUp_cover bb.lonMax stepLon hlon bb.lonMin plon hplon hplon2
  obtain ⟨row, hrow⟩ := exists_enum_of_mem hlatMem
  obtain ⟨col, hcol⟩ := exists_enum_of_mem hlonMem
  have hkr : keep ⟨tlon, tlat, min (tlon + wDeg) bb.lonMax,
      min (tlat + hDeg) bb.latMax⟩ = true := by
    apply hkeep
    · exact hlonLe
    · exact le_of_lt (lt_min (by linarith) hplon2)
    · exact hlatLe
    · exact le_of_lt (lt_min (by linarith) hplat2)
  refine ⟨(row, col, ⟨tlon, tlat, min (tlon + wDeg) bb.lonMax,
    min (tlat + hDeg) bb.latMax⟩), ?_⟩
  unfold tile_grid
  apply List.mem_flatMap.mpr
  refine ⟨(row, tlat), hrow, ?_⟩
  apply List.mem_filterMap.mpr
  refine ⟨(col, tlon), hcol, ?_⟩
  simp only [hkr, if_true]

/-- Elimination for grid membership: a produced `(row, col, r)` determines
the loop start values at positions `row` and `col` and the cell shape. -/
theorem tile_grid_mem_elim (bb : Rect) (wDeg hDeg stepLon stepLat : ℚ)
    (hlon : 0 < stepLon) (hlat : 0 < stepLat) (keep : Rect → Bool)
    (row col : ℕ) (r : Rect)
    (hmem : (row, col, r) ∈ tile_grid bb wDeg hDeg stepLon stepLat hlon hlat keep) :
    ∃ tlat tlon,
      (whileStartsUp bb.latMax stepLat hlat bb.latMin)[row]? = some tlat ∧
      (whileStartsUp bb.lonMax stepLon hlon bb.lonMin)[col]? = some tlon ∧
      r = ⟨tlon, tlat, min (tlon + wDeg) bb.lonMax, min (tlat + hDeg) bb.latMax⟩ := by
  unfold tile_grid at hmem
  obtain ⟨rowStart, hrowMem, hinner⟩ := List.mem_flatMap.mp hmem
  obtain ⟨colStart, hcolMem, heq⟩ := List.mem_filterMap.mp hinner
  by_cases hk : keep ⟨colStart.2, rowStart.2, min (colStart.2 + wDeg) bb.lonMax,
      min (rowStart.2 + hDeg) bb.latMax⟩
  · rw [if_pos hk] at heq
    have h1 : rowStart.1 = row ∧ colStart.1 = col ∧
        (⟨colStart.2, rowStart.2, min (colStart.2 + wDeg) bb.lonMax,
          min (rowStart.2 + hDeg) bb.latMax⟩ : Rect) = r := by
      have := Option.some.inj heq
      exact ⟨congrArg Prod.fst this, congrArg Prod.fst (congrArg Prod.snd this),
        congrArg Prod.snd (congrArg Prod.snd this)⟩
    obtain ⟨he1, he2, he3⟩ := h1
    refine ⟨rowStart.2, colStart.2, ?_, ?_, he3.symm⟩
    · have : (rowStart.1, rowStart.2) ∈
          (whileStartsUp bb.latMax stepLat hlat bb.latMin).enum := by
        simpa using hrowMem
      rw [← he1]
      exact List.mk_mem_enum_iff_getElem?.mp this
    · have : (colStart.1, colStart.2) ∈
          (whileStartsUp bb.lonMax stepLon hlon bb.lonMin).enum := by
        simpa using hcolMem
      rw [← he2]
      exact List.mk_mem_enum_iff_getElem?.mp this
  · rw [if_neg hk] at heq
    exact absurd heq (by simp)

/-- With steps strictly larger than the tile dimensions (negative overlap),
horizontally adjacent grid cells of the same row leave a gap, and so do the
rows. -/
theorem tile_grid_gaps (bb : Rect) (wDeg hDeg stepLon stepLat : ℚ)
    (hlon : 0 < stepLon) (hlat : 0 < stepLat) (keep : Rect → Bool)
    (hgw : wDeg < stepLon) (hgh : hDeg < stepLat) :
    (∀ row c r1 r2,
      (row, c, r1) ∈ tile_grid bb wDeg hDeg stepLon stepLat hlon hlat keep →
      (row, c + 1, r2) ∈ tile_grid bb wDeg hDeg stepLon stepLat hlon hlat keep →
      r1.lonMax < r2.lonMin) ∧
    (∀ row c1 c2 r1 r2,
      (row, c1, r1) ∈ tile_grid bb wDeg hDeg stepLon stepLat hlon hlat keep →
      (row + 1, c2, r2) ∈ tile_grid bb wDeg hDeg stepLon stepLat hlon hlat keep →
      r1.latMax < r2.latMin) := by
  constructor
  · intro row c r1 r2 h1 h2
    obtain ⟨tlat1, tlon1, hg1, hg2, hr1⟩ := tile_grid_mem_elim _ _ _ _ _ _ _ _ _ _ _ h1
    obtain ⟨tlat2, tlon2, hg3, hg4, hr2⟩ := tile_grid_mem_elim _ _ _ _ _ _ _ _ _ _ _ h2
    have hstep : tlon2 = tlon1 + stepLon :=
      whileStartsUp_succ bb.lonMax stepLon hlon c bb.lonMin tlon1 tlon2 hg2 hg4
    rw [hr1, hr2]
    simp only
    calc min (tlon1 + wDeg) bb.lonMax ≤ tlon1 + wDeg := min_le_left _ _
      _ < tlon1 + stepLon := by linarith
      _ = tlon2 := hstep.symm
  · intro row c1 c2 r1 r2 h1 h2
    obtain ⟨tlat1, tlon1, hg1, hg2, hr1⟩ := tile_grid_mem_elim _ _ _ _ _ _ _ _ _ _ _ h1
    obtain ⟨tlat2, tlon2, hg3, hg4, hr2⟩ := tile_grid_mem_elim _ _ _ _ _ _ _ _ _ _ _ h2
    have hstep : tlat2 = tlat1 + stepLat :=
      whileStartsUp_succ bb.latMax stepLat hlat row bb.latMin tlat1 tlat2 hg1 hg3
    rw [hr1, hr2]
    simp only
    calc min (tlat1 + hDeg) bb.latMax ≤ tlat1 + hDeg := min_le_left _ _
      _ < tlat1 + stepLat := by linarith
      _ = tlat2 := hstep.symm

/-- A pixel covered by no window in the list is untouched by the write
fold. -/
theorem foldl_write_untouched (tiles : List TileWrite) (g : ℤ → ℤ → ℚ)
    (row col : ℤ)
    (hnone : ∀ u ∈ tiles, u.win.containsB row col = false) :
    tiles.foldl write_window g row col = g row col := by
  induction tiles generalizing g with
  | nil => rfl
  | cons t rest ih =>
    rw [List.foldl_cons, ih _ (fun u hu => hnone u (List.mem_cons_of_mem _ hu))]
    simp [write_window, hnone t (List.mem_cons_self _ _)]

/-- `compute_mosaic_metadata`'s per-tile loop raises on any list containing
a tile whose CRS or transform coefficients differ from the reference. -/
theorem mosaic_meta_fold_error (ref : TileMeta) (rest : List TileMeta)
    (t : TileMeta) (hmem : t ∈ rest)
    (hbad : t.crs ≠ ref.crs ∨ t.transA ≠ ref.transA ∨ t.transE ≠ ref.transE) :
    ∀ acc, ∃ e, mosaic_meta_fold ref acc rest = .error e := by
  induction rest with
  | nil => exact absurd hmem (by simp)
  | cons u rest ih =>
    intro acc
    rw [mosaic_meta_fold]
    by_cases h1 : u.crs ≠ ref.crs
    · rw [if_pos h1]
      exact ⟨_, rfl⟩
    · rw [if_neg h1]
      by_cases h2 : u.transA ≠ ref.transA ∨ u.transE ≠ ref.transE
      · rw [if_pos h2]
        exact ⟨_, rfl⟩
      · rw [if_neg h2]
        push_neg at h1 h2
        have htmem : t ∈ rest := by
          rcases List.mem_cons.mp hmem with heq | hmem2
          · subst heq
            rcases hbad with hb | hb | hb
            · exact absurd h1 hb
            · exact absurd h2.1 hb
            · exact absurd h2.2 hb
          · exact hmem2
        exact ih htmem _

/-- `filterMap` with a function returning `some` on every element preserves
the length. -/
theorem length_filterMap_all_some {α β : Type} (f : α → Option β) (l : List α)
    (h : ∀ a ∈ l, (f a).isSome) : (l.filterMap f).length = l.length := by
  induction l with
  | nil => rfl
  | cons a l ih =>
    rw [List.filterMap_cons]
    rcases hsome : f a with _ | b
    · exact absurd (hsome ▸ h a (List.mem_cons_self _ _)) (by simp)
    · rw [List.length_cons, ih (fun x hx => h x (List.mem_cons_of_mem _ hx))]
      rfl

/-- The created directory is present after `mkdir(parents=True, exist_ok=True)`. -/
theorem mkdirAll_mem (fs : FS) (d : String) : d ∈ (fs.mkdirAll d).dirs := by
  unfold FS.mkdirAll
  by_cases hmem : d ∈ fs.dirs
  · simp [hmem]
  · simp [hmem]

/-- C1: for every ordered tile sequence fed to the streaming mosaic writer,
a pixel covered by a tile and by no later tile holds exactly that tile's
value — last write wins, with no averaging or feathering; in particular when
two tiles cover the same pixel, the later one in iteration order
prevails. -/
theorem mosaic_last_write_wins (init : ℤ → ℤ → ℚ)
    (earlier later : List TileWrite) (t : TileWrite) (row col : ℤ)
    (hcov : t.win.containsB row col = true)
    (hlater : ∀ u ∈ later, u.win.containsB row col = false) :
    streaming_mosaic_write init (earlier ++ t :: later) row col =
      t.val (row - t.win.rowOff) (col - t.win.colOff) := by
  unfold streaming_mosaic_write
  rw [List.foldl_append, List.foldl_cons,
    foldl_write_untouched later _ row col hlater]
  simp [write_window, hcov]

/-- C1 witness: two overlapping constant tiles with values 1 then 2; the
overlap pixel `(0, 6)` ends at the second tile's value 2. -/
theorem mosaic_last_write_wins_witness :
    streaming_mosaic_write (fun _ _ => 0)
      [⟨⟨0, 0, 10, 10⟩, fun _ _ => 1⟩, ⟨⟨5, 0, 10, 10⟩, fun _ _ => 2⟩] 0 6 =
      (2 : ℚ) :=
  mosaic_last_write_wins (fun _ _ => 0) [⟨⟨0, 0, 10, 10⟩, fun _ _ => 1⟩] []
    ⟨⟨5, 0, 10, 10⟩, fun _ _ => 2⟩ 0 6 (by decide) (by simp)

/-- C4 counterexample: the S2 composite downloader derives
`..._r3_c4.tif` for tile `(3, 4)` — unpadded — while the specified format
demands `..._r03_c04.tif`; the two names differ, so not every producer uses
the zero-padded format. -/
theorem s2_tile_name_unpadded_cex :
    s2_download_tile_name "s2_oct_2016_cf" 2016 10 3 4 =
      "s2_oct_2016_cf_2016_10_r3_c4.tif" ∧
    spec_tile_name "s2_oct_2016_cf_2016_10" 3 4 ".tif" =
      "s2_oct_2016_cf_2016_10_r03_c04.tif" ∧
    s2_download_tile_name "s2_oct_2016_cf" 2016 10 3 4 ≠
      spec_tile_name "s2_oct_2016_cf_2016_10" 3 4 ".tif" := by
  decide

/-- C4 amended: the alphaearth downloader, alphaearth checker and
naturalforest downloader all derive the zero-padded
`{stem}_r{row:02d}_c{col:02d}{suffix}` name of the spec, bit-identically to
each other; the S2 composite downloader and checker agree bit-exactly with
each other on the unpadded `…_r{r}_c{c}.tif` name instead.  Name agreement
therefore holds within each pipeline, but the S2 pipeline does not use the
zero-padded format. -/
theorem tile_name_consistency (stem suffix : String) (row col : ℕ)
    (stem2 : String) (year month r c : ℕ) :
    alphaearth_tile_name stem suffix row col = spec_tile_name stem row col suffix ∧
    check_alphaearth_tile_name stem suffix row col =
      alphaearth_tile_name stem suffix row col ∧
    naturalforest_tile_name stem suffix row col =
      alphaearth_tile_name stem suffix row col ∧
    s2_download_tile_name stem2 year month r c =
      s2_check_tile_name stem2 year month r c ".tif" :=
  ⟨rfl, rfl, rfl, rfl⟩

/-- C6: an overlap at least as large as a tile dimension (equivalently a
non-positive step on some axis, given positive dimensions and a positive
reference-latitude cosine) makes `iterate_tiles` fail with the overlap
configuration error and `split_bbox_by_km` with its corresponding error;
the `Except.error` results mean no tile is yielded. -/
theorem overlap_not_smaller_rejected (polygon : List (ℚ × ℚ)) (cosRefLat : ℚ)
    (keep : Rect → Bool) (w h ov : ℚ)
    (hpoly : polygon ≠ []) (hcos : 0 < cosRefLat)
    (hw : 0 < w) (hh : 0 < h) (hov : w ≤ ov ∨ h ≤ ov)
    (bbox : Rect) (cosS wS hS ovS : ℚ) (hovS : wS ≤ ovS ∨ hS ≤ ovS) :
    iterate_tiles polygon cosRefLat keep w h ov =
      .error "Tile overlap must be smaller than the tile dimensions." ∧
    split_bbox_by_km bbox cosS wS hS ovS =
      .error "Tile width/height must be greater than overlap." :=
  ⟨iterate_tiles_overlap_error polygon cosRefLat keep w h ov hpoly hcos hw hh hov,
   split_bbox_overlap_error bbox cosS wS hS ovS hovS⟩

/-- C6 witness: `1 km` tiles with `2 km` overlap are rejected by both
tilers. -/
theorem overlap_not_smaller_rejected_witness :
    iterate_tiles [((0:ℚ), (0:ℚ)), (1, 1)] 1 (fun _ => true) 1 1 2 =
      .error "Tile overlap must be smaller than the tile dimensions." ∧
    split_bbox_by_km ⟨0, 0, 1, 1⟩ 1 1 1 2 =
      .error "Tile width/height must be greater than overlap." :=
  overlap_not_smaller_rejected [((0:ℚ), (0:ℚ)), (1, 1)] 1 (fun _ => true) 1 1 2
    (by decide) (by norm_num) (by norm_num) (by norm_num)
    (Or.inl (by norm_num)) ⟨0, 0, 1, 1⟩ 1 1 1 2 (Or.inl (by norm_num))

/-- With a zero cosine (pole) and a valid overlap, `split_bbox_by_km`
reaches the kilometre-to-degree division with a zero divisor. -/
theorem split_bbox_zero_division (bbox : Rect) (w h ov : ℚ)
    (hw : ov < w) (hh : ov < h) :
    split_bbox_by_km bbox 0 w h ov =
      .error "ZeroDivisionError: float division by zero" := by
  unfold split_bbox_by_km meters_per_degree
  rw [if_neg (by push_neg; exact ⟨hw, hh⟩)]
  norm_num [pydiv]

/-- C7 counterexample: at a pole (cosine of the reference latitude equal to
0) the S2 kilometre-to-longitude-degree conversion inside
`split_bbox_by_km` hits an unguarded division by zero — it does not fail
with an explicit pole error. -/
theorem pole_division_by_zero_cex :
    split_bbox_by_km ⟨0, 0, 1, 1⟩ 0 5 5 (1/2) =
      .error "ZeroDivisionError: float division by zero" :=
  split_bbox_zero_division ⟨0, 0, 1, 1⟩ 5 5 (1/2) (by norm_num) (by norm_num)

/-- C7 amended: the alphaearth-family converter `km_to_deg_lon` does defend
the pole explicitly (`cos = 0` raises the dedicated `ValueError`), but the
S2 composite conversion in `split_bbox_by_km` has no pole guard and instead
hits a raw division by zero. -/
theorem pole_guard_alphaearth_only (km : ℚ) (bbox : Rect) (w h ov : ℚ)
    (hw : ov < w) (hh : ov < h) :
    km_to_deg_lon km 0 =
      .error "Cannot compute longitude degrees at the poles." ∧
    split_bbox_by_km bbox 0 w h ov =
      .error "ZeroDivisionError: float division by zero" := by
  exact ⟨rfl, split_bbox_zero_division bbox w h ov hw hh⟩

/-- C7 witness: concrete pole configuration exercising both conversion
paths. -/
theorem pole_guard_alphaearth_only_witness :
    km_to_deg_lon 1 0 =
      .error "Cannot compute longitude degrees at the poles." ∧
    split_bbox_by_km ⟨0, 0, 2, 2⟩ 0 5 5 (1/2) =
      .error "ZeroDivisionError: float division by zero" :=
  pole_guard_alphaearth_only 1 ⟨0, 0, 2, 2⟩ 5 5 (1/2) (by norm_num) (by norm_num)

/-- C9 counterexample: on an empty filesystem (tile directory absent) the S2
composite checker reports every expected tile missing but performs no
directory creation — its filesystem state is returned unchanged with an
empty directory list, contradicting that every reconciler lazily creates the
directory. -/
theorem s2_checker_no_mkdir_cex :
    (s2_check_main ⟨[], []⟩ "data/raw/gee/tiles" "s2_oct_2016" 2016 10 ".tif"
      [(0, 0), (0, 1)]).1 = ⟨[], []⟩ ∧
    (s2_check_main ⟨[], []⟩ "data/raw/gee/tiles" "s2_oct_2016" 2016 10 ".tif"
      [(0, 0), (0, 1)]).2.missing.length = 2 ∧
    (s2_check_main ⟨[], []⟩ "data/raw/gee/tiles" "s2_oct_2016" 2016 10 ".tif"
      [(0, 0), (0, 1)]).1.dirs = [] := by
  decide

/-- C9 amended: when no expected tile file exists (as when the directory is
absent), both reconcilers report all expected tiles missing and neither
fails — the models have no error path, as the code has none; the alphaearth
checker additionally creates the directory first, while the S2 checker
leaves the filesystem untouched. -/
theorem missing_directory_all_missing (fs : FS) (parentDir stem suffix : String)
    (tiles : List (ℕ × ℕ))
    (hnofiles : ∀ rc ∈ tiles,
      (parentDir ++ "/" ++ check_alphaearth_tile_name stem suffix rc.1 rc.2) ∉ fs.files)
    (fs2 : FS) (outDir stem2 : String) (year month : ℕ) (ext : String)
    (tiles2 : List (ℕ × ℕ))
    (hnofiles2 : ∀ rc ∈ tiles2,
      (outDir ++ "/" ++ s2_check_tile_name stem2 year month rc.1 rc.2 ext) ∉ fs2.files) :
    (parentDir ∈ (check_tiles fs parentDir stem suffix tiles).1.dirs ∧
      (check_tiles fs parentDir stem suffix tiles).2.missing.length = tiles.length ∧
      (check_tiles fs parentDir stem suffix tiles).2.total = tiles.length) ∧
    ((s2_check_main fs2 outDir stem2 year month ext tiles2).1 = fs2 ∧
      (s2_check_main fs2 outDir stem2 year month ext tiles2).2.missing.length =
        tiles2.length) := by
  refine ⟨⟨mkdirAll_mem fs parentDir, ?_, rfl⟩, rfl, ?_⟩
  · apply length_filterMap_all_some
    intro rc hrc
    simp [FS.mkdirAll, hnofiles rc hrc]
  · apply length_filterMap_all_some
    intro rc hrc
    simp [hnofiles2 rc hrc]

/-- C9 witness: one expected tile on an empty filesystem for both
checkers. -/
theorem missing_directory_all_missing_witness :
    (("map/2017/alphaearth" : String) ∈
      (check_tiles ⟨[], []⟩ "map/2017/alphaearth" "brahmanbaria_alphaearth_2017"
        ".tif" [(0, 0)]).1.dirs ∧
      (check_tiles ⟨[], []⟩ "map/2017/alphaearth" "brahmanbaria_alphaearth_2017"
        ".tif" [(0, 0)]).2.missing.length = 1 ∧
      (check_tiles ⟨[], []⟩ "map/2017/alphaearth" "brahmanbaria_alphaearth_2017"
        ".tif" [(0, 0)]).2.total = 1) ∧
    ((s2_check_main ⟨[], []⟩ "data/raw/gee/tiles" "s2_oct_2016" 2016 10 ".tif"
        [(0, 0)]).1 = ⟨[], []⟩ ∧
      (s2_check_main ⟨[], []⟩ "data/raw/gee/tiles" "s2_oct_2016" 2016 10 ".tif"
        [(0, 0)]).2.missing.length = 1) := by
  have h1 : ∀ rc ∈ ([(0, 0)] : List (ℕ × ℕ)),
      ("map/2017/alphaearth" ++ "/" ++
        check_alphaearth_tile_name "brahmanbaria_alphaearth_2017" ".tif" rc.1 rc.2) ∉
        (⟨[], []⟩ : FS).files := by
    intro rc _
    simp
  have h2 : ∀ rc ∈ ([(0, 0)] : List (ℕ × ℕ)),
      ("data/raw/gee/tiles" ++ "/" ++
        s2_check_tile_name "s2_oct_2016" 2016 10 rc.1 rc.2 ".tif") ∉
        (⟨[], []⟩ : FS).files := by
    intro rc _
    simp
  have hlen : ([(0, 0)] : List (ℕ × ℕ)).length = 1 := rfl
  have := missing_directory_all_missing ⟨[], []⟩ "map/2017/alphaearth"
    "brahmanbaria_alphaearth_2017" ".tif" [(0, 0)] h1 ⟨[], []⟩
    "data/raw/gee/tiles" "s2_oct_2016" 2016 10 ".tif" [(0, 0)] h2
  exact this

/-- C2: resuming (`start_tile > 1`, in range) verifies — before any tile is
written — that the output exists and that its transform and pixel dimensions
equal the metadata recomputed from the tile list; a missing output or any
mismatch aborts with an error and the write list is empty (the existing
output file is not touched). -/
theorem resume_verified_before_any_write (tiles : List TileMeta)
    (existing : Option ExistingOutput) (startTile : ℤ) (meta : MosaicMeta)
    (hmeta : compute_mosaic_metadata tiles = .ok meta)
    (hgt : 1 < startTile) (hle : startTile ≤ (tiles.length : ℤ))
    (hbad : existing = none ∨ ∃ ex, existing = some ex ∧
      (ex.transform ≠ meta.transform ∨ ex.width ≠ meta.width ∨
        ex.height ≠ meta.height)) :
    ∃ e, mosaic_tiles tiles existing startTile = ([], Except.error e) := by
  unfold mosaic_tiles
  rw [hmeta]
  simp only
  rw [if_neg (by push_neg; exact ⟨by linarith, hle⟩)]
  rw [if_pos hgt]
  rcases hbad with hnone | ⟨ex, hex, hb⟩
  · rw [hnone]
    exact ⟨_, rfl⟩
  · rw [hex]
    dsimp only
    by_cases ht : ex.transform = meta.transform
    · rw [if_neg (not_not_intro ht)]
      have hd : ex.width ≠ meta.width ∨ ex.height ≠ meta.height := by
        rcases hb with hb | hb | hb
        · exact absurd ht hb
        · exact Or.inl hb
        · exact Or.inr hb
      rw [if_pos hd]
      exact ⟨_, rfl⟩
    · rw [if_pos ht]
      exact ⟨_, rfl⟩

/-- C2 witness: resuming at tile 2 of 2 with no existing output aborts with
no writes. -/
theorem resume_verified_before_any_write_witness :
    ∃ e, mosaic_tiles
      [⟨0, 0, 10, 10, 0, 1, -1, 10, 10, 0, 1, none⟩,
       ⟨0, 0, 10, 10, 0, 1, -1, 10, 10, 0, 1, none⟩] none 2 =
      ([], Except.error e) :=
  resume_verified_before_any_write
    [⟨0, 0, 10, 10, 0, 1, -1, 10, 10, 0, 1, none⟩,
     ⟨0, 0, 10, 10, 0, 1, -1, 10, 10, 0, 1, none⟩] none 2
    ⟨⟨1, 0, 0, 0, -1, 10⟩, 10, 10, 0, 0, 1, 0⟩
    (by norm_num [compute_mosaic_metadata, mosaic_meta_fold, math_ceil,
      from_origin])
    (by norm_num) (by norm_num) (Or.inl rfl)

/-- C3 counterexample: `_streaming_mosaic`'s metadata phase accepts two
tiles that disagree on both CRS and pixel size without any error — the
second tile is never verified, so a mismatch is not a fatal precondition
failure there. -/
theorem streaming_mosaic_no_verification_cex :
    (⟨10, 0, 20, 10, 1, 2, -2, 5, 5, 0, 1, none⟩ : TileMeta).crs ≠
      (⟨0, 0, 10, 10, 0, 1, -1, 10, 10, 0, 1, none⟩ : TileMeta).crs ∧
    (⟨10, 0, 20, 10, 1, 2, -2, 5, 5, 0, 1, none⟩ : TileMeta).transA ≠
      (⟨0, 0, 10, 10, 0, 1, -1, 10, 10, 0, 1, none⟩ : TileMeta).transA ∧
    streaming_mosaic_profile
      [⟨0, 0, 10, 10, 0, 1, -1, 10, 10, 0, 1, none⟩,
       ⟨10, 0, 20, 10, 1, 2, -2, 5, 5, 0, 1, none⟩] =
      .ok ⟨10, 20, ⟨1, 0, 0, 0, -1, 10⟩, 1, 0, 0, 0⟩ := by
  refine ⟨by norm_num, by norm_num, ?_⟩
  norm_num [streaming_mosaic_profile, union_bounds, math_ceil, from_origin]

/-- C3 amended: the naturalforest mosaic (`compute_mosaic_metadata`) takes
pixel size, datatype and CRS from the first tile and verifies every
subsequent tile's CRS and pixel size, raising on a mismatch; the S2
composite mosaic (`streaming_mosaic_profile`) also takes its reference
metadata from the first tile but performs no verification of subsequent
tiles at all — it succeeds on any nonempty list. -/
theorem reference_metadata_verification (ref : TileMeta) (rest : List TileMeta)
    (t : TileMeta) (hmem : t ∈ rest)
    (hbad : t.crs ≠ ref.crs ∨ t.transA ≠ ref.transA ∨ t.transE ≠ ref.transE)
    (ref2 : TileMeta) (rest2 : List TileMeta) :
    (∃ e, compute_mosaic_metadata (ref :: rest) = .error e) ∧
    ∃ p, streaming_mosaic_profile (ref2 :: rest2) = .ok p ∧
      p.crs = ref2.crs ∧ p.dtype = ref2.dtype ∧ p.bandCount = ref2.bandCount ∧
      p.transform.a = ref2.transA := by
  constructor
  · obtain ⟨e, he⟩ := mosaic_meta_fold_error ref rest t hmem hbad
      (ref.left, ref.bottom, ref.right, ref.top)
    unfold compute_mosaic_metadata
    dsimp only
    rw [he]
    exact ⟨e, rfl⟩
  · exact ⟨_, rfl, rfl, rfl, rfl, rfl⟩

/-- C3 witness: a second tile with a different CRS makes
`compute_mosaic_metadata` fail while `streaming_mosaic_profile` succeeds
with the first tile's metadata. -/
theorem reference_metadata_verification_witness :
    (∃ e, compute_mosaic_metadata
      [⟨0, 0, 10, 10, 0, 1, -1, 10, 10, 0, 1, none⟩,
       ⟨10, 0, 20, 10, 1, 1, -1, 10, 10, 0, 1, none⟩] = .error e) ∧
    ∃ p, streaming_mosaic_profile
        [⟨0, 0, 10, 10, 0, 1, -1, 10, 10, 0, 1, none⟩,
         ⟨10, 0, 20, 10, 1, 1, -1, 10, 10, 0, 1, none⟩] = .ok p ∧
      p.crs = (⟨0, 0, 10, 10, 0, 1, -1, 10, 10, 0, 1, none⟩ : TileMeta).crs ∧
      p.dtype = (⟨0, 0, 10, 10, 0, 1, -1, 10, 10, 0, 1, none⟩ : TileMeta).dtype ∧
      p.bandCount =
        (⟨0, 0, 10, 10, 0, 1, -1, 10, 10, 0, 1, none⟩ : TileMeta).bandCount ∧
      p.transform.a =
        (⟨0, 0, 10, 10, 0, 1, -1, 10, 10, 0, 1, none⟩ : TileMeta).transA :=
  reference_metadata_verification ⟨0, 0, 10, 10, 0, 1, -1, 10, 10, 0, 1, none⟩
    [⟨10, 0, 20, 10, 1, 1, -1, 10, 10, 0, 1, none⟩]
    ⟨10, 0, 20, 10, 1, 1, -1, 10, 10, 0, 1, none⟩
    (List.mem_cons_self _ _) (Or.inl (by norm_num))
    ⟨0, 0, 10, 10, 0, 1, -1, 10, 10, 0, 1, none⟩
    [⟨10, 0, 20, 10, 1, 1, -1, 10, 10, 0, 1, none⟩]

/-- C5 counterexample: the alphaearth downloader with an invalid overlap
configuration (2 km overlap on 1 km tiles) still performs its two network
round-trips (Earth Engine initialisation and the collection size query)
before the configuration error is raised — the fatal configuration error is
not reported before all network I/O. -/
theorem alphaearth_config_error_after_network_cex :
    (alphaearth_main (9/10) (fun _ => true) 1 1 1 2).1 =
      [Ev.net "ee.Initialize", Ev.net "ImageCollection.size.getInfo"] ∧
    (alphaearth_main (9/10) (fun _ => true) 1 1 1 2).1.any Ev.isNetwork = true ∧
    (alphaearth_main (9/10) (fun _ => true) 1 1 1 2).2 =
      .error "Tile overlap must be smaller than the tile dimensions." := by
  have herr := iterate_tiles_overlap_error BRAHMANBARIA_BBOX (9/10)
    (fun _ => true) 1 1 2
    (by simp [BRAHMANBARIA_BBOX, brahmanbaria_coords])
    (by norm_num) (by norm_num) (by norm_num) (Or.inl (by norm_num))
  refine ⟨?_, ?_, ?_⟩ <;> simp [alphaearth_main, herr, Ev.isNetwork]

/-- C5 amended: in the S2 composite downloader every tiling configuration
error (overlap not smaller than the tile dimension) is reported with an
empty effect trace — before any network or disk I/O; in the alphaearth
downloader the same class of error is reported only after the Earth Engine
initialisation and collection-size network calls, so the claim's ordering
holds for the S2 pipeline but not for the alphaearth pipeline. -/
theorem config_error_io_ordering (cosA : ℚ) (keep : Rect → Bool) (nA : ℕ)
    (wA hA ovA : ℚ) (hnA : nA ≠ 0) (hcosA : 0 < cosA) (hwA : 0 < wA)
    (hhA : 0 < hA) (hovA : wA ≤ ovA ∨ hA ≤ ovA)
    (cosS : ℚ) (nS : ℕ) (wS hS ovS : ℚ) (hovS : wS ≤ ovS ∨ hS ≤ ovS) :
    s2_cloudfree_main cosS nS wS hS ovS =
      ([], .error "Tile width/height must be greater than overlap.") ∧
    (alphaearth_main cosA keep nA wA hA ovA).1 =
      [Ev.net "ee.Initialize", Ev.net "ImageCollection.size.getInfo"] ∧
    (alphaearth_main cosA keep nA wA hA ovA).2 =
      .error "Tile overlap must be smaller than the tile dimensions." := by
  have herrS := split_bbox_overlap_error
    ⟨905024/10000, 235049/10000, 914834/10000, 244451/10000⟩ cosS wS hS ovS hovS
  have hbbS : bbox_from_coords brahmanbaria_coords =
      some ⟨905024/10000, 235049/10000, 914834/10000, 244451/10000⟩ := by
    norm_num [bbox_from_coords, get_bounds_from_polygon, brahmanbaria_coords,
      min_def, max_def]
  have herrA := iterate_tiles_overlap_error BRAHMANBARIA_BBOX cosA keep
    wA hA ovA (by simp [BRAHMANBARIA_BBOX, brahmanbaria_coords]) hcosA hwA hhA hovA
  refine ⟨?_, ?_, ?_⟩
  · simp [s2_cloudfree_main, hbbS, herrS]
  · simp [alphaearth_main, herrA, hnA]
  · simp [alphaearth_main, herrA, hnA]

/-- C5 witness: concrete invalid configurations for both downloaders. -/
theorem config_error_io_ordering_witness :
    s2_cloudfree_main 1 3 1 1 2 =
      ([], .error "Tile width/height must be greater than overlap.") ∧
    (alphaearth_main 1 (fun _ => true) 1 1 1 2).1 =
      [Ev.net "ee.Initialize", Ev.net "ImageCollection.size.getInfo"] ∧
    (alphaearth_main 1 (fun _ => true) 1 1 1 2).2 =
      .error "Tile overlap must be smaller than the tile dimensions." :=
  config_error_io_ordering 1 (fun _ => true) 1 1 1 2 (by norm_num) (by norm_num)
    (by norm_num) (by norm_num) (Or.inl (by norm_num)) 1 3 1 1 2
    (Or.inl (by norm_num))

/-- C8: for a valid TileSpec (positive dimensions, non-negative overlap
smaller than both dimensions, positive reference-latitude cosine),
`iterate_tiles` terminates — the model is a total function whose loops are
well-founded on the positive step — and returns at least one tile whenever
the AOI has positive area, the latter expressed by a bounding-box point at
which every containing cell passes the positive-intersection-area test. -/
theorem tiler_terminates_and_yields (polygon : List (ℚ × ℚ)) (cosRefLat : ℚ)
    (keep : Rect → Bool) (w h ov : ℚ) (bb : Rect) (plon plat : ℚ)
    (hbb : get_bounds_from_polygon polygon = some bb)
    (hcos : 0 < cosRefLat) (hw : 0 < w) (hh : 0 < h)
    (hov0 : 0 ≤ ov) (hovw : ov < w) (hovh : ov < h)
    (hplon : bb.lonMin ≤ plon) (hplon2 : plon < bb.lonMax)
    (hplat : bb.latMin ≤ plat) (hplat2 : plat < bb.latMax)
    (hkeep : ∀ r : Rect, r.lonMin ≤ plon → plon ≤ r.lonMax →
      r.latMin ≤ plat → plat ≤ r.latMax → keep r = true) :
    ∃ tiles, iterate_tiles polygon cosRefLat keep w h ov = .ok tiles ∧
      tiles ≠ [] := by
  have hdenom : (0:ℚ) < (2783/25) * cosRefLat := by positivity
  have hwp : 0 < w / ((2783/25) * cosRefLat) := div_pos hw hdenom
  have hhp : 0 < km_to_deg_lat h := by
    unfold km_to_deg_lat
    exact div_pos hh (by norm_num)
  have hlon : 0 < w / ((2783/25) * cosRefLat) - ov / ((2783/25) * cosRefLat) := by
    rw [div_sub_div_same]
    exact div_pos (by linarith) hdenom
  have hlat : 0 < km_to_deg_lat h - km_to_deg_lat ov := by
    unfold km_to_deg_lat
    rw [div_sub_div_same]
    exact div_pos (by linarith) (by norm_num)
  have hsw : w / ((2783/25) * cosRefLat) - ov / ((2783/25) * cosRefLat) ≤
      w / ((2783/25) * cosRefLat) := by
    have hnn : 0 ≤ ov / ((2783/25) * cosRefLat) :=
      div_nonneg hov0 (le_of_lt hdenom)
    linarith
  have hsh : km_to_deg_lat h - km_to_deg_lat ov ≤ km_to_deg_lat h := by
    have hnn : 0 ≤ km_to_deg_lat ov := by
      unfold km_to_deg_lat
      exact div_nonneg hov0 (by norm_num)
    linarith
  obtain ⟨e, he⟩ := tile_grid_covers bb _ _ _ _ hlon hlat keep plon plat
    hsw hsh hplon hplon2 hplat hplat2 hkeep
  exact ⟨_, iterate_tiles_ok polygon cosRefLat keep w h ov bb hbb
    (ne_of_gt hcos) hwp hhp hlon hlat, List.ne_nil_of_mem he⟩

/-- C8 witness: the unit square with 200 km tiles, no overlap, and an
everywhere-positive intersection oracle yields a nonempty tile list. -/
theorem tiler_terminates_and_yields_witness :
    ∃ tiles, iterate_tiles [((0:ℚ), (0:ℚ)), (1, 1)] 1 (fun _ => true)
      200 200 0 = .ok tiles ∧ tiles ≠ [] :=
  tiler_terminates_and_yields [((0:ℚ), (0:ℚ)), (1, 1)] 1 (fun _ => true)
    200 200 0 ⟨0, 0, 1, 1⟩ 0 0
    (by norm_num [get_bounds_from_polygon, min_def, max_def])
    (by norm_num) (by norm_num) (by norm_num) (by norm_num) (by norm_num)
    (by norm_num) (by norm_num) (by norm_num) (by norm_num) (by norm_num)
    (fun r _ _ _ _ => rfl)

/-- C10: a strictly negative overlap passes both tilers' validation — the
only overlap check is that the step stays positive — and the resulting step
exceeds the tile dimension, so horizontally adjacent cells of a row and
vertically adjacent rows are separated by uncovered gaps. -/
theorem negative_overlap_accepted_gaps (polygon : List (ℚ × ℚ))
    (cosRefLat : ℚ) (keep : Rect → Bool) (w h ov : ℚ) (bb : Rect)
    (hbb : get_bounds_from_polygon polygon = some bb)
    (hcos : 0 < cosRefLat) (hw : 0 < w) (hh : 0 < h) (hov : ov < 0)
    (bbox : Rect) (cosS wS hS ovS : ℚ)
    (hcosS : 0 < cosS) (hwS : ovS < wS) (hhS : ovS < hS) :
    (∃ tiles, iterate_tiles polygon cosRefLat keep w h ov = .ok tiles ∧
      (∀ row c r1 r2, (row, c, r1) ∈ tiles → (row, c + 1, r2) ∈ tiles →
        r1.lonMax < r2.lonMin) ∧
      (∀ row c1 c2 r1 r2, (row, c1, r1) ∈ tiles → (row + 1, c2, r2) ∈ tiles →
        r1.latMax < r2.latMin)) ∧
    ∃ ts, split_bbox_by_km bbox cosS wS hS ovS = .ok ts := by
  have hdenom : (0:ℚ) < (2783/25) * cosRefLat := by positivity
  have hwp : 0 < w / ((2783/25) * cosRefLat) := div_pos hw hdenom
  have hhp : 0 < km_to_deg_lat h := by
    unfold km_to_deg_lat
    exact div_pos hh (by norm_num)
  have hlon : 0 < w / ((2783/25) * cosRefLat) - ov / ((2783/25) * cosRefLat) := by
    rw [div_sub_div_same]
    exact div_pos (by linarith) hdenom
  have hlat : 0 < km_to_deg_lat h - km_to_deg_lat ov := by
    unfold km_to_deg_lat
    rw [div_sub_div_same]
    exact div_pos (by linarith) (by norm_num)
  have hgw : w / ((2783/25) * cosRefLat) <
      w / ((2783/25) * cosRefLat) - ov / ((2783/25) * cosRefLat) := by
    have hneg : ov / ((2783/25) * cosRefLat) < 0 :=
      div_neg_of_neg_of_pos hov hdenom
    linarith
  have hgh : km_to_deg_lat h < km_to_deg_lat h - km_to_deg_lat ov := by
    have hneg : km_to_deg_lat ov < 0 := by
      unfold km_to_deg_lat
      exact div_neg_of_neg_of_pos hov (by norm_num)
    linarith
  obtain ⟨hgaps1, hgaps2⟩ := tile_grid_gaps bb
    (w / ((2783/25) * cosRefLat)) (km_to_deg_lat h)
    (w / ((2783/25) * cosRefLat) - ov / ((2783/25) * cosRefLat))
    (km_to_deg_lat h - km_to_deg_lat ov) hlon hlat keep hgw hgh
  constructor
  · exact ⟨_, iterate_tiles_ok polygon cosRefLat keep w h ov bb hbb
      (ne_of_gt hcos) hwp hhp hlon hlat, hgaps1, hgaps2⟩
  · obtain ⟨hl, hl2, heq⟩ := split_bbox_ok bbox cosS wS hS ovS hcosS hwS hhS
    exact ⟨_, heq⟩

/-- C10 witness: 1 km tiles with a −1 km overlap are accepted by both
tilers, with the gap property holding for the alphaearth grid. -/
theorem negative_overlap_accepted_gaps_witness :
    (∃ tiles, iterate_tiles [((0:ℚ), (0:ℚ)), (1, 1)] 1 (fun _ => true)
        1 1 (-1) = .ok tiles ∧
      (∀ row c r1 r2, (row, c, r1) ∈ tiles → (row, c + 1, r2) ∈ tiles →
        r1.lonMax < r2.lonMin) ∧
      (∀ row c1 c2 r1 r2, (row, c1, r1) ∈ tiles → (row + 1, c2, r2) ∈ tiles →
        r1.latMax < r2.latMin)) ∧
    ∃ ts, split_bbox_by_km ⟨0, 0, 1, 1⟩ 1 1 1 (-1) = .ok ts :=
  negative_overlap_accepted_gaps [((0:ℚ), (0:ℚ)), (1, 1)] 1 (fun _ => true)
    1 1 (-1) ⟨0, 0, 1, 1⟩
    (by norm_num [get_bounds_from_polygon, min_def, max_def])
    (by norm_num) (by norm_num) (by norm_num) (by norm_num)
    ⟨0, 0, 1, 1⟩ 1 1 1 (-1) (by norm_num) (by norm_num) (by norm_num)
